import Mathlib

/-
Verification of the SolsticeOps k8s module: the connectivity gate and
resource-snapshot fetcher (`Module.get_context_data`, src/module.py lines
165-293) and the interactive exec session bridge (`K8sSession.run` /
`K8sSession.send_input`, src/module.py lines 55-69).

The Django cache is modelled for the single tool instance under discussion:
two keys are involved, `k8s_connectivity_error_{tool.id}` and
`k8s_probing_{tool.id}`.  Entries carry an absolute expiry instant; a read at
instant `now` sees the entry only while `now < expiry`, matching the lazy TTL
expiry of the backing store (a `cache.set(key, v, ttl)` issued at instant `t`
stores expiry `t + ttl`).  External network calls are modelled by an oracle
recording each call's outcome; the list of calls actually issued is returned
as a trace.
-/

namespace K8s

deriving instance DecidableEq for Except

/-- Python truthiness of an optional string, as in `if last_error:` and
`if namespace:` (src/module.py lines 194, 268): `None` and the empty string
are falsy, every other string is truthy. -/
def truthyStr : Option String → Bool
  | none => false
  | some s => !(s == "")

/-- The two cache keys used by `Module.get_context_data` for one tool
instance: `err` models `k8s_connectivity_error_{tool.id}` (message and
absolute expiry), `probing` models `k8s_probing_{tool.id}` (the stored value
is the constant `True`, so only the expiry matters). -/
structure CacheState where
  err : Option (String × Nat)
  probing : Option Nat
deriving DecidableEq

/-- `cache.get(cache_key)` at instant `now`: the stored message while the
entry is unexpired, else `None` (src/module.py line 193). -/
def cacheGetErr (c : CacheState) (now : Nat) : Option String :=
  match c.err with
  | some (m, exp) => if now < exp then some m else none
  | none => none

/-- `cache.get(probing_key)` at instant `now`, as a truthiness test: the
stored value is `True`, so the test holds iff the entry is unexpired
(src/module.py line 198). -/
def probingActive (c : CacheState) (now : Nat) : Bool :=
  match c.probing with
  | some exp => decide (now < exp)
  | none => false

/-- The network calls `get_context_data` may issue, in the order they appear
in src/module.py lines 243-284.  The namespaced and all-namespaces variants
of each list call are identified (they differ only in the API function
used). -/
inductive ApiCall
  | listNamespace
  | listPods
  | listDeployments
  | listServices
  | listConfigMaps
  | listSecrets
  | listEvents
  | listNodes
deriving DecidableEq

/-- Outcome oracle for the external calls of one `get_context_data`
execution.  `setup` covers `client.Configuration` / `config.load_kube_config`
/ `client.ApiClient` / `client.CoreV1Api` (src/module.py lines 231-239),
whose failure reaches the outer `except`.  `canary` is `v1.list_namespace`
(line 243).  `contextName` is the result of the
`config.list_kube_config_contexts` block (lines 261-265): `none` when the
call raised or there was no active context (both leave the default).
`ipMismatch` is the result of the kubeconfig-vs-primary-IP comparison block
(lines 213-228), whose own failures are swallowed.  The remaining fields are
the per-kind list calls (lines 269-284). -/
structure ApiOracle where
  setup : Except String Unit
  canary : Except String (List String)
  contextName : Option String
  ipMismatch : Option (String × String)
  pods : Except String (List String)
  deployments : Except String (List String)
  services : Except String (List String)
  configmaps : Except String (List String)
  secrets : Except String (List String)
  events : Except String (List String)
  nodes : Except String (List String)
deriving DecidableEq

/-- The context dictionary built by `get_context_data` (src/module.py lines
168-179 plus the keys set later: `k8s_error`, `is_probing`,
`current_namespace`, `k8s_ip_mismatch`). -/
structure Context where
  pods : List String
  deployments : List String
  services : List String
  configmaps : List String
  secrets : List String
  events : List String
  nodes : List String
  namespaces : List String
  contextName : String
  available : Bool
  error : Option String
  isProbing : Bool
  currentNamespace : Option String
  ipMismatch : Option (String × String)
deriving DecidableEq

/-- The initial context of src/module.py lines 168-179: every list empty,
`k8s_context = 'N/A'`, `k8s_available = False`, no error. -/
def baseContext : Context :=
  { pods := [], deployments := [], services := [], configmaps := []
    secrets := [], events := [], nodes := [], namespaces := []
    contextName := "N/A", available := false, error := none
    isProbing := false, currentNamespace := none, ipMismatch := none }

/-- Result of one `get_context_data` execution: the returned context, the
cache state it leaves behind, and the trace of network calls issued (a call
that raised was still issued and appears in the trace). -/
structure FetchResult where
  ctx : Context
  cache : CacheState
  calls : List ApiCall
deriving DecidableEq

/-- The outer `except Exception` handler of src/module.py lines 287-291:
records the message as `k8s_error`, caches it for 30 seconds, and returns.
The probing key is not touched here. -/
def perKindFail (ctx : Context) (c : CacheState) (now : Nat)
    (calls : List ApiCall) (e : String) : FetchResult :=
  ⟨{ ctx with error := some e }, { c with err := some (e, now + 30) }, calls⟩

/-- The per-kind list calls of src/module.py lines 267-285: pods,
deployments, services, configmaps, secrets, events (namespaced or
cluster-wide according to the truthiness of the `namespace` query
parameter), then `current_namespace` in the namespaced branch, then nodes,
then `k8s_available = True`.  All of them sit inside the single outer `try`,
so the first failure goes to `perKindFail` and the later calls are not
issued. -/
def perKind (nsf : Option String) (o : ApiOracle) (ctx0 : Context)
    (c : CacheState) (now : Nat) (calls0 : List ApiCall) : FetchResult :=
  let calls1 := calls0 ++ [ApiCall.listPods]
  match o.pods with
  | Except.error e => perKindFail ctx0 c now calls1 e
  | Except.ok xs1 =>
  let ctx1 := { ctx0 with pods := xs1 }
  let calls2 := calls1 ++ [ApiCall.listDeployments]
  match o.deployments with
  | Except.error e => perKindFail ctx1 c now calls2 e
  | Except.ok xs2 =>
  let ctx2 := { ctx1 with deployments := xs2 }
  let calls3 := calls2 ++ [ApiCall.listServices]
  match o.services with
  | Except.error e => perKindFail ctx2 c now calls3 e
  | Except.ok xs3 =>
  let ctx3 := { ctx2 with services := xs3 }
  let calls4 := calls3 ++ [ApiCall.listConfigMaps]
  match o.configmaps with
  | Except.error e => perKindFail ctx3 c now calls4 e
  | Except.ok xs4 =>
  let ctx4 := { ctx3 with configmaps := xs4 }
  let calls5 := calls4 ++ [ApiCall.listSecrets]
  match o.secrets with
  | Except.error e => perKindFail ctx4 c now calls5 e
  | Except.ok xs5 =>
  let ctx5 := { ctx4 with secrets := xs5 }
  let calls6 := calls5 ++ [ApiCall.listEvents]
  match o.events with
  | Except.error e => perKindFail ctx5 c now calls6 e
  | Except.ok xs6 =>
  let ctx6 := { ctx5 with events := xs6 }
  let ctx7 := if truthyStr nsf then { ctx6 with currentNamespace := nsf } else ctx6
  let calls7 := calls6 ++ [ApiCall.listNodes]
  match o.nodes with
  | Except.error e => perKindFail ctx7 c now calls7 e
  | Except.ok xs7 =>
  ⟨{ ctx7 with nodes := xs7, available := true }, c, calls7⟩

/-- The body of the outer `try` of src/module.py lines 203-285, entered with
a readable kubeconfig in hand: set the probing key for 10 seconds (line
210), run the IP-mismatch block (lines 213-228), build the client (lines
231-239, failure reaching the outer handler with the probing key left in
place), run the canary `list_namespace` (lines 242-254: on failure cache the
message for 300 seconds, delete the probing key and return; on success
delete the probing key), read the active context name (lines 261-265), then
fan out to the per-kind calls. -/
def probePath (nsf : Option String) (o : ApiOracle) (c : CacheState)
    (now : Nat) : FetchResult :=
  let c1 : CacheState := { c with probing := some (now + 10) }
  let ctxA : Context := { baseContext with ipMismatch := o.ipMismatch }
  match o.setup with
  | Except.error e => perKindFail ctxA c1 now [] e
  | Except.ok _ =>
  match o.canary with
  | Except.error e =>
      ⟨{ ctxA with error := some e },
        { c1 with err := some (e, now + 300), probing := none },
        [ApiCall.listNamespace]⟩
  | Except.ok nss =>
  let ctxB := { ctxA with namespaces := nss }
  let c2 := { c1 with probing := none }
  let ctxC := match o.contextName with
    | some n => { ctxB with contextName := n }
    | none => ctxB
  perKind nsf o ctxC c2 now [ApiCall.listNamespace]

/-- `Module.get_context_data` (src/module.py lines 165-293) for one tool
instance at instant `now`.  `installed` is `tool.status == 'installed'`
(line 181), `k8sLib` is the module-level `K8S_AVAILABLE` flag (line 184),
`kcfg` is the result of `get_kubeconfig()` (line 204), `nsf` is the
`namespace` query parameter.  The guard chain: not installed → bare context;
library missing → library error; truthy unexpired cached error → reuse it
with the `Cluster unreachable (cached): ` prefix (lines 193-196); unexpired
probing key → probing marker (lines 198-201); no kubeconfig → kubeconfig
error (lines 205-207); otherwise enter the probe path. -/
def get_context_data (installed k8sLib : Bool) (kcfg nsf : Option String)
    (o : ApiOracle) (c : CacheState) (now : Nat) : FetchResult :=
  if !installed then ⟨baseContext, c, []⟩
  else if !k8sLib then
    ⟨{ baseContext with
        error := some "The kubernetes Python library is not installed." }, c, []⟩
  else if truthyStr (cacheGetErr c now) then
    ⟨{ baseContext with
        error := some ("Cluster unreachable (cached): " ++ (cacheGetErr c now).getD "") },
      c, []⟩
  else if probingActive c now then
    ⟨{ baseContext with
        error := some "Cluster connectivity check in progress...", isProbing := true },
      c, []⟩
  else
    match kcfg with
    | none => ⟨{ baseContext with error := some "No readable kubeconfig found." }, c, []⟩
    | some _ => probePath nsf o c now

/-- Whether an external call completed without raising. -/
def isOk {α : Type} : Except String α → Bool
  | Except.ok _ => true
  | Except.error _ => false

/-- All-ok oracle used for concrete evaluations. -/
def oracleAllOk : ApiOracle :=
  { setup := Except.ok (), canary := Except.ok ["default"], contextName := some "adm"
    ipMismatch := none, pods := Except.ok ["p1"], deployments := Except.ok ["d1"]
    services := Except.ok ["s1"], configmaps := Except.ok ["cm1"]
    secrets := Except.ok ["sec1"], events := Except.ok ["ev1"]
    nodes := Except.ok ["n1"] }

/-- Oracle whose canary fails with a plain authorization error — an error
that is neither a network timeout nor an unreachable host. -/
def oracleCanary401 : ApiOracle :=
  { oracleAllOk with canary := Except.error "401 Unauthorized" }

/-- Oracle whose node list call fails with a timeout-shaped error while
everything before it succeeds. -/
def oracleNodesTimeout : ApiOracle :=
  { oracleAllOk with nodes := Except.error "Connection timed out" }

/-- Oracle whose pods list call fails while every other call, the canary
included, succeeds. -/
def oraclePodsFail : ApiOracle :=
  { oracleAllOk with pods := Except.error "pods list failed" }

/-
Interleaving model of the gate portion of `get_context_data` (src/module.py
lines 193-210).  Each caller runs the same instruction sequence against the
shared cache, one cache operation per step: read the error key (line 193/194),
read the probing key (line 198), check `get_kubeconfig()` (lines 204-207,
no cache access, but real work — file system probes — sits between the read
and the write of the probing key), and finally `cache.set(probing_key, True,
10)` (line 210).  The read of the probing key and its write are two separate
cache operations with no lock between them.
-/

/-- Outcome of the gate portion for one caller: the spec names these
`Proceed`, `ReuseCachedError`, `ProbeInProgress`; `noKubeconfig` is the
early return of src/module.py lines 205-207. -/
inductive GateResult
  | proceed
  | reuseCachedError (msg : String)
  | probeInProgress
  | noKubeconfig
deriving DecidableEq

/-- One caller executing the gate portion: `pc` is the index of the next
cache/file operation (0 = read error key, 1 = read probing key, 2 = check
kubeconfig, 3 = write probing key), `result` is set once the caller has
returned from the gate portion. -/
structure Caller where
  pc : Nat
  result : Option GateResult
deriving DecidableEq

/-- One atomic step of one caller through src/module.py lines 193-210.
`kconfig` is whether `get_kubeconfig()` finds a readable file; `now` is the
instant (the whole race happens well within one TTL, so a single instant is
used).  A caller whose `result` is set is finished and steps are no-ops. -/
def gateStep (kconfig : Bool) (now : Nat) (c : CacheState) (cl : Caller) :
    CacheState × Caller :=
  match cl.result with
  | some _ => (c, cl)
  | none =>
    if cl.pc = 0 then
      if truthyStr (cacheGetErr c now) then
        (c, ⟨cl.pc, some (GateResult.reuseCachedError ((cacheGetErr c now).getD ""))⟩)
      else (c, ⟨1, none⟩)
    else if cl.pc = 1 then
      if probingActive c now then (c, ⟨cl.pc, some GateResult.probeInProgress⟩)
      else (c, ⟨2, none⟩)
    else if cl.pc = 2 then
      if kconfig then (c, ⟨3, none⟩)
      else (c, ⟨cl.pc, some GateResult.noKubeconfig⟩)
    else
      ({ c with probing := some (now + 10) }, ⟨4, some GateResult.proceed⟩)

/-- Run two concurrent callers through the gate portion under an explicit
schedule: `false` steps caller `a`, `true` steps caller `b`.  Both share the
cache. -/
def runSched (kconfig : Bool) (now : Nat) :
    List Bool → CacheState → Caller → Caller → CacheState × Caller × Caller
  | [], c, a, b => (c, a, b)
  | false :: rest, c, a, b =>
      let s := gateStep kconfig now c a
      runSched kconfig now rest s.1 s.2 b
  | true :: rest, c, a, b =>
      let s := gateStep kconfig now c b
      runSched kconfig now rest s.1 a s.2

/-
Exec session bridge: `K8sSession.run` and `K8sSession.send_input`
(src/module.py lines 55-69).  The kubernetes websocket stream is the
external transport; its observable behaviour over the loop's lifetime is a
script.  At each arrival at the loop head the script prescribes what the
loop observes: `stopFlag` — `self.keep_running` reads false (the flag
`TerminalSession` exposes, set by `stop`); `channelClosed` —
`self.stream.is_open()` reads false; `iter it` — the loop body runs, where
`it.updateRaises` means `self.stream.update(timeout=0.1)` raises (socket
torn down mid-poll), and otherwise `it.stdoutData` / `it.stderrData` are the
chunks for which `peek_stdout` / `peek_stderr` report data this iteration.
An exhausted script is read as the channel having closed.

`TerminalSession.add_history` and the `history` attribute live in
core.terminal_manager, outside this repository.  Modelled from the spec:
`history` is an "append-only ordered sequence of output chunks" —
`add_history(data)` appends the chunk it is passed.  The call sites
(src/module.py lines 60 and 62) pass the raw decoded bytes and nothing
else, so a history entry is exactly the chunk string; no stream tag is part
of the call.
-/

/-- Observable behaviour of one pump-loop iteration, as prescribed by the
transport. -/
structure StreamIter where
  updateRaises : Bool
  stdoutData : Option String
  stderrData : Option String
deriving DecidableEq

/-- What the loop head observes on one arrival. -/
inductive LoopEvent
  | stopFlag
  | channelClosed
  | iter (it : StreamIter)
deriving DecidableEq

/-- Observable actions of one `run()` execution: a history append
(`add_history`), a call to `self.stream.close()`, or an exception escaping
`run()` to its caller.  `raisedToCaller` is never emitted by the model —
that absence is exactly the claim that the loop never propagates. -/
inductive SessEvent
  | histAppend (chunk : String)
  | closeCall
  | raisedToCaller
deriving DecidableEq

/-- History appends of one loop body execution: stdout is checked and read
first (src/module.py lines 59-60), then stderr (lines 61-62). -/
def iterEvents (it : StreamIter) : List SessEvent :=
  (match it.stdoutData with
    | some d => [SessEvent.histAppend d]
    | none => []) ++
  (match it.stderrData with
    | some d => [SessEvent.histAppend d]
    | none => [])

/-- The `while` loop of src/module.py lines 57-62, without the surrounding
`try`: the trace of history appends, and whether an exception escaped the
loop. -/
def pumpTrace : List LoopEvent → List SessEvent × Bool
  | [] => ([], false)
  | LoopEvent.stopFlag :: _ => ([], false)
  | LoopEvent.channelClosed :: _ => ([], false)
  | LoopEvent.iter it :: rest =>
    if it.updateRaises then ([], true)
    else
      let r := pumpTrace rest
      (iterEvents it ++ r.1, r.2)

/-- `K8sSession.run` (src/module.py lines 55-65): the loop inside
`try ... except: pass` — any exception is swallowed — followed by the single
`self.stream.close()` after the handler, executed on every exit path. -/
def K8sSession.run (script : List LoopEvent) : List SessEvent :=
  (pumpTrace script).1 ++ [SessEvent.closeCall]

/-- The chunks appended to `history`, in order. -/
def historyOf (t : List SessEvent) : List String :=
  t.filterMap (fun e =>
    match e with
    | SessEvent.histAppend c => some c
    | _ => none)

/-- Number of `close()` calls in a trace. -/
def countClose : List SessEvent → Nat
  | [] => 0
  | SessEvent.closeCall :: t => countClose t + 1
  | _ :: t => countClose t

/-- The stdin side of the exec stream as `send_input` sees it: whether
`is_open()` reports open, and the data written so far via `write_stdin`. -/
structure SessionStream where
  isOpen : Bool
  stdin : List String
deriving DecidableEq

/-- `K8sSession.send_input` (src/module.py lines 67-69): write the data to
the stream's stdin when the stream reports open, otherwise do nothing. -/
def K8sSession.send_input (s : SessionStream) (data : String) : SessionStream :=
  if s.isOpen then { s with stdin := s.stdin ++ [data] } else s

/-- Channel script yielding a single stdout chunk "x" and nothing else. -/
def scriptOutX : List LoopEvent := [LoopEvent.iter ⟨false, some "x", none⟩]

/-- Channel script yielding a single stderr chunk "x" and nothing else. -/
def scriptErrX : List LoopEvent := [LoopEvent.iter ⟨false, none, some "x"⟩]

/-- Channel script yielding stdout "a", then stderr "b", then stdout "c",
one chunk per poll iteration. -/
def scriptABC : List LoopEvent :=
  [LoopEvent.iter ⟨false, some "a", none⟩,
   LoopEvent.iter ⟨false, none, some "b"⟩,
   LoopEvent.iter ⟨false, some "c", none⟩]

/-- C1: the claim says the probing-marker check and set form a single atomic
operation, so that of all concurrent `checkAndEnter` calls within a probing
window at most one returns `Proceed`.  The code performs the check
(src/module.py line 198) and the set (line 210) as two separate cache
operations: under the interleaving in which both callers pass the read of
the probing key before either writes it, both callers return `Proceed`, and
both ends of the race lie inside the resulting probing window (the marker is
set with its 10-second deadline). -/
theorem gate_race_both_proceed :
    (runSched true 0 [false, false, false, true, true, true, false, true]
        ⟨none, none⟩ ⟨0, none⟩ ⟨0, none⟩).2.1.result = some GateResult.proceed
    ∧ (runSched true 0 [false, false, false, true, true, true, false, true]
        ⟨none, none⟩ ⟨0, none⟩ ⟨0, none⟩).2.2.result = some GateResult.proceed
    ∧ probingActive (runSched true 0 [false, false, false, true, true, true, false, true]
        ⟨none, none⟩ ⟨0, none⟩ ⟨0, none⟩).1 0 = true := by decide

/-- C2: the claim (and the comment at src/module.py lines 250-251) says a
timeout/unreachable-host error is cached for 300 seconds and any other
failure for 30 seconds.  The code performs no such classification: every
canary failure is cached for 300 seconds (line 252) — here a plain
authorization error, cached until instant 300 rather than 30 — and every
post-canary failure is cached for 30 seconds (line 291) — here a
timeout-shaped error, cached until instant 30 rather than 300. -/
theorem canary_error_cached_300_unclassified :
    (get_context_data true true (some "/root/.kube/config") none oracleCanary401
        ⟨none, none⟩ 0).cache.err = some ("401 Unauthorized", 300)
    ∧ (get_context_data true true (some "/root/.kube/config") none oracleNodesTimeout
        ⟨none, none⟩ 0).cache.err = some ("Connection timed out", 30) := by decide

/-- C3 counterexample: with the canary succeeding and the pods list call
failing, the remaining kinds are aborted, not fetched: the deployments call
is never issued and its list stays empty even though its oracle outcome is a
non-empty success, and the failure becomes the single snapshot-level
`k8s_error` rather than a per-kind result — all per-kind calls sit in the
one `try` of src/module.py lines 203-291. -/
theorem perKind_failure_aborts_rest_cex :
    (get_context_data true true (some "/root/.kube/config") none oraclePodsFail
        ⟨none, none⟩ 0).ctx.error = some "pods list failed"
    ∧ oraclePodsFail.deployments = Except.ok ["d1"]
    ∧ (get_context_data true true (some "/root/.kube/config") none oraclePodsFail
        ⟨none, none⟩ 0).ctx.deployments = []
    ∧ ApiCall.listDeployments ∉
        (get_context_data true true (some "/root/.kube/config") none oraclePodsFail
          ⟨none, none⟩ 0).calls
    ∧ (get_context_data true true (some "/root/.kube/config") none oraclePodsFail
        ⟨none, none⟩ 0).calls = [ApiCall.listNamespace, ApiCall.listPods] := by decide

/-- C3 amended: after the canary succeeds, a failure in a per-kind list call
(here the first kind, pods) is not isolated to that kind — it aborts the
remaining per-kind calls, becomes the single snapshot-level error, is cached
for 30 seconds, and leaves the aggregate carrying only the kinds fetched
before the failure (the rest stay empty) with `k8s_available` false. -/
theorem perKind_failure_aborts_rest (nsf : Option String) (o : ApiOracle)
    (c : CacheState) (now : Nat) (cfg e : String) (nss : List String)
    (hce : truthyStr (cacheGetErr c now) = false)
    (hpr : probingActive c now = false)
    (hs : o.setup = Except.ok ())
    (hcan : o.canary = Except.ok nss)
    (hp : o.pods = Except.error e) :
    (get_context_data true true (some cfg) nsf o c now).ctx.error = some e
    ∧ (get_context_data true true (some cfg) nsf o c now).calls
        = [ApiCall.listNamespace, ApiCall.listPods]
    ∧ (get_context_data true true (some cfg) nsf o c now).ctx.deployments = []
    ∧ (get_context_data true true (some cfg) nsf o c now).ctx.available = false
    ∧ (get_context_data true true (some cfg) nsf o c now).cache.err = some (e, now + 30)
    ∧ (get_context_data true true (some cfg) nsf o c now).cache.probing = none := by
  cases hn : o.contextName <;>
    simp [get_context_data, probePath, perKind, perKindFail, baseContext,
      hce, hpr, hs, hcan, hp, hn]

/-- C3 witness: the amended behaviour evaluated at a concrete input. -/
theorem perKind_failure_aborts_rest_wit :
    (get_context_data true true (some "/root/.kube/config") none oraclePodsFail
        ⟨none, none⟩ 0).ctx.error = some "pods list failed"
    ∧ (get_context_data true true (some "/root/.kube/config") none oraclePodsFail
        ⟨none, none⟩ 0).calls = [ApiCall.listNamespace, ApiCall.listPods]
    ∧ (get_context_data true true (some "/root/.kube/config") none oraclePodsFail
        ⟨none, none⟩ 0).ctx.deployments = []
    ∧ (get_context_data true true (some "/root/.kube/config") none oraclePodsFail
        ⟨none, none⟩ 0).ctx.available = false
    ∧ (get_context_data true true (some "/root/.kube/config") none oraclePodsFail
        ⟨none, none⟩ 0).cache.err = some ("pods list failed", 0 + 30)
    ∧ (get_context_data true true (some "/root/.kube/config") none oraclePodsFail
        ⟨none, none⟩ 0).cache.probing = none :=
  perKind_failure_aborts_rest none oraclePodsFail ⟨none, none⟩ 0 "/root/.kube/config"
    "pods list failed" ["default"] (by decide) (by decide) rfl rfl rfl

/-- C4 counterexample: a non-expired cached-error entry (with the falsy
empty message, which slips past the `if last_error:` truthiness check of
src/module.py line 194) is still present after a live call completes
successfully: the success path deletes only the probing key (line 245) and
never deletes the error key, so the claim that `reportSuccess` clears any
previously cached error is false. -/
theorem success_leaves_cached_error_cex :
    cacheGetErr ⟨some ("", 1000), none⟩ 0 = some ""
    ∧ (get_context_data true true (some "/root/.kube/config") none oracleAllOk
        ⟨some ("", 1000), none⟩ 0).ctx.available = true
    ∧ (get_context_data true true (some "/root/.kube/config") none oracleAllOk
        ⟨some ("", 1000), none⟩ 0).cache.err = some ("", 1000) := by decide

/-- C4 amended: the success path after the live canary call clears only the
`Probing` marker; the cached-error key is left exactly as it was.  (A
non-empty cached error short-circuits the fetch before any live call, so on
the sequential path the surviving entry can only be one with an empty
message — or one written concurrently after the check.) -/
theorem success_clears_only_probing (nsf : Option String) (o : ApiOracle)
    (c : CacheState) (now : Nat) (cfg : String)
    (nss l1 l2 l3 l4 l5 l6 l7 : List String)
    (hce : truthyStr (cacheGetErr c now) = false)
    (hpr : probingActive c now = false)
    (hs : o.setup = Except.ok ())
    (hcan : o.canary = Except.ok nss)
    (h1 : o.pods = Except.ok l1)
    (h2 : o.deployments = Except.ok l2)
    (h3 : o.services = Except.ok l3)
    (h4 : o.configmaps = Except.ok l4)
    (h5 : o.secrets = Except.ok l5)
    (h6 : o.events = Except.ok l6)
    (h7 : o.nodes = Except.ok l7) :
    (get_context_data true true (some cfg) nsf o c now).cache.probing = none
    ∧ (get_context_data true true (some cfg) nsf o c now).cache.err = c.err := by
  cases hn : o.contextName <;>
    simp [get_context_data, probePath, perKind, perKindFail, baseContext,
      hce, hpr, hs, hcan, h1, h2, h3, h4, h5, h6, h7, hn]

/-- C4 witness: the amended behaviour evaluated at a concrete input — the
probing marker is cleared, the (empty-message) cached-error entry survives. -/
theorem success_clears_only_probing_wit :
    (get_context_data true true (some "/root/.kube/config") none oracleAllOk
        ⟨some ("", 1000), none⟩ 0).cache.probing = none
    ∧ (get_context_data true true (some "/root/.kube/config") none oracleAllOk
        ⟨some ("", 1000), none⟩ 0).cache.err = some ("", 1000) :=
  success_clears_only_probing none oracleAllOk ⟨some ("", 1000), none⟩ 0
    "/root/.kube/config" ["default"] ["p1"] ["d1"] ["s1"] ["cm1"] ["sec1"] ["ev1"] ["n1"]
    (by decide) (by decide) rfl rfl rfl rfl rfl rfl rfl rfl rfl

/-- C5 counterexample: a non-expired cached-error entry whose message is the
empty string is not reused — the empty string is falsy, so the
`if last_error:` check of src/module.py line 194 falls through and a live
call is attempted (the canary is issued and the fetch completes live),
refuting the claim that whenever a non-expired cached error exists no live
call is attempted. -/
theorem cached_empty_error_not_reused_cex :
    cacheGetErr ⟨some ("", 1000), none⟩ 0 = some ""
    ∧ ApiCall.listNamespace ∈
        (get_context_data true true (some "/root/.kube/config") none oracleAllOk
          ⟨some ("", 1000), none⟩ 0).calls
    ∧ (get_context_data true true (some "/root/.kube/config") none oracleAllOk
        ⟨some ("", 1000), none⟩ 0).calls ≠ [] := by decide

/-- C5 amended: whenever a non-expired cached error with a non-empty (truthy)
message exists for the key, the fetch returns immediately with the cached
message (prefixed `Cluster unreachable (cached): `) as the degraded result:
no network call of any kind is issued and the cache is left untouched. -/
theorem cached_error_reused_no_live_call (kcfg nsf : Option String)
    (o : ApiOracle) (c : CacheState) (now : Nat) (msg : String)
    (h : cacheGetErr c now = some msg) (hm : msg ≠ "") :
    get_context_data true true kcfg nsf o c now =
      ⟨{ baseContext with error := some ("Cluster unreachable (cached): " ++ msg) },
        c, []⟩ := by
  simp [get_context_data, truthyStr, h, hm]

/-- C5 witness: the amended behaviour evaluated at a concrete input. -/
theorem cached_error_reused_no_live_call_wit :
    get_context_data true true (some "/root/.kube/config") none oracleAllOk
        ⟨some ("boom", 100), none⟩ 0 =
      ⟨{ baseContext with error := some ("Cluster unreachable (cached): " ++ "boom") },
        ⟨some ("boom", 100), none⟩, []⟩ :=
  cached_error_reused_no_live_call (some "/root/.kube/config") none oracleAllOk
    ⟨some ("boom", 100), none⟩ 0 "boom" (by decide) (by decide)

/-- C6: when the canary `list_namespace` call fails, the fetch
short-circuits: the only network call issued is the canary itself, the error
message becomes the snapshot result (`k8s_error`, with `k8s_available`
false), and the gate is updated — the message is cached until `now + 300`
and the probing marker is deleted (src/module.py lines 242-254). -/
theorem canary_failure_short_circuits (nsf : Option String) (o : ApiOracle)
    (c : CacheState) (now : Nat) (cfg e : String)
    (hce : truthyStr (cacheGetErr c now) = false)
    (hpr : probingActive c now = false)
    (hs : o.setup = Except.ok ())
    (hcan : o.canary = Except.error e) :
    get_context_data true true (some cfg) nsf o c now =
      ⟨{ baseContext with ipMismatch := o.ipMismatch, error := some e },
        ⟨some (e, now + 300), none⟩, [ApiCall.listNamespace]⟩ := by
  simp [get_context_data, probePath, hce, hpr, hs, hcan]

/-- C6 witness: the canary short-circuit evaluated at a concrete input. -/
theorem canary_failure_short_circuits_wit :
    get_context_data true true (some "/root/.kube/config") none oracleCanary401
        ⟨none, none⟩ 0 =
      ⟨{ baseContext with ipMismatch := oracleCanary401.ipMismatch, error := some "401 Unauthorized" },
        ⟨some ("401 Unauthorized", 300), none⟩, [ApiCall.listNamespace]⟩ :=
  canary_failure_short_circuits none oracleCanary401 ⟨none, none⟩ 0
    "/root/.kube/config" "401 Unauthorized" (by decide) (by decide) rfl rfl

/-- C7 counterexample: the chunks in `history` carry no source-stream tag.
The call sites (src/module.py lines 60 and 62) pass `add_history` the raw
chunk and nothing else, so a session that read chunk "x" from stdout is
observationally identical to one that read the same chunk from stderr: the
two distinct channel scripts produce equal run traces (hence equal
histories).  If each history entry were tagged with its source stream, as
the claim states, the two histories would differ. -/
theorem history_untagged_cex :
    scriptOutX ≠ scriptErrX
    ∧ K8sSession.run scriptOutX = K8sSession.run scriptErrX
    ∧ historyOf (K8sSession.run scriptOutX) = ["x"] := by decide

/-- C7 amended: the session history is an append-only sequence of untagged
output chunks that preserves the order chunks were read from the channel:
for a channel yielding stdout chunk "a", then stderr chunk "b", then stdout
chunk "c", the resulting history is exactly `["a", "b", "c"]` — interleaved
in read order, but with stdout and stderr chunks indistinguishable. -/
theorem history_preserves_read_order :
    historyOf (K8sSession.run scriptABC) = ["a", "b", "c"] := by decide

/-- Helper: `countClose` distributes over append. -/
theorem countClose_append (a b : List SessEvent) :
    countClose (a ++ b) = countClose a + countClose b := by
  induction a with
  | nil => simp [countClose]
  | cons e t ih => cases e <;> simp [countClose, ih, Nat.add_right_comm]

/-- Helper: a loop-body iteration emits only history appends — no close. -/
theorem iterEvents_no_close (it : StreamIter) : countClose (iterEvents it) = 0 := by
  cases h1 : it.stdoutData <;> cases h2 : it.stderrData <;>
    simp [iterEvents, h1, h2, countClose]

/-- Helper: the pump loop itself never calls `close()`. -/
theorem pumpTrace_no_close (script : List LoopEvent) :
    countClose (pumpTrace script).1 = 0 := by
  induction script with
  | nil => simp [pumpTrace, countClose]
  | cons ev rest ih =>
    cases ev with
    | stopFlag => simp [pumpTrace, countClose]
    | channelClosed => simp [pumpTrace, countClose]
    | iter it =>
      cases h : it.updateRaises <;>
        simp [pumpTrace, h, countClose, countClose_append, iterEvents_no_close, ih]

/-- Helper: a loop-body iteration never propagates an exception. -/
theorem iterEvents_no_raise (it : StreamIter) :
    SessEvent.raisedToCaller ∉ iterEvents it := by
  cases h1 : it.stdoutData <;> cases h2 : it.stderrData <;>
    simp [iterEvents, h1, h2]

/-- Helper: the pump loop emits no exception-propagation event. -/
theorem pumpTrace_no_raise (script : List LoopEvent) :
    SessEvent.raisedToCaller ∉ (pumpTrace script).1 := by
  induction script with
  | nil => simp [pumpTrace]
  | cons ev rest ih =>
    cases ev with
    | stopFlag => simp [pumpTrace]
    | channelClosed => simp [pumpTrace]
    | iter it =>
      cases h : it.updateRaises <;>
        simp [pumpTrace, h, iterEvents_no_raise, ih]

/-- C8: for every channel script — loop exit by the `keep_running` flag, by
the channel reporting closed, by script exhaustion, or by a transport error
raised mid-poll — `run()` propagates no exception to its caller and calls
`close()` on the channel exactly once (the single `self.stream.close()`
after the `try ... except: pass` of src/module.py lines 55-65). -/
theorem run_no_raise_close_once (script : List LoopEvent) :
    countClose (K8sSession.run script) = 1
    ∧ SessEvent.raisedToCaller ∉ K8sSession.run script := by
  constructor
  · simp [K8sSession.run, countClose_append, pumpTrace_no_close, countClose]
  · simp [K8sSession.run, pumpTrace_no_raise]

/-- C9: `send_input` writes the data to the channel's stdin exactly when the
channel reports open; when the channel reports closed, the write is silently
dropped — the session and channel state are returned unchanged, and (the
model being a total function) nothing is raised (src/module.py lines
67-69). -/
theorem send_input_drop_when_closed (s : SessionStream) (data : String) :
    (s.isOpen = false → K8sSession.send_input s data = s)
    ∧ (s.isOpen = true →
        K8sSession.send_input s data = { s with stdin := s.stdin ++ [data] }) := by
  constructor <;> intro h <;> simp [K8sSession.send_input, h]

/-- C9 witness: both branches evaluated at concrete inputs. -/
theorem send_input_drop_when_closed_wit :
    K8sSession.send_input ⟨false, ["prev"]⟩ "ls" = ⟨false, ["prev"]⟩
    ∧ K8sSession.send_input ⟨true, ["prev"]⟩ "ls" = ⟨true, ["prev", "ls"]⟩ :=
  ⟨(send_input_drop_when_closed ⟨false, ["prev"]⟩ "ls").1 rfl,
    (send_input_drop_when_closed ⟨true, ["prev"]⟩ "ls").2 rfl⟩

/-- Helper: `k8s_available` after the per-kind fan-out is true exactly when
every per-kind call succeeded (or the incoming context already had it true,
which never happens on the real path). -/
theorem perKind_available (nsf : Option String) (o : ApiOracle) (ctx : Context)
    (c : CacheState) (now : Nat) (calls : List ApiCall) :
    (perKind nsf o ctx c now calls).ctx.available =
      (isOk o.pods && isOk o.deployments && isOk o.services && isOk o.configmaps
        && isOk o.secrets && isOk o.events && isOk o.nodes || ctx.available) := by
  cases h1 : o.pods <;> cases h2 : o.deployments <;> cases h3 : o.services <;>
    cases h4 : o.configmaps <;> cases h5 : o.secrets <;> cases h6 : o.events <;>
    cases h7 : o.nodes <;> cases hn : truthyStr nsf <;>
    simp [perKind, perKindFail, isOk, h1, h2, h3, h4, h5, h6, h7, hn]

/-- Helper: `k8s_available` after the probe path is true exactly when the
client setup, the canary and every per-kind call succeeded. -/
theorem probePath_available (nsf : Option String) (o : ApiOracle)
    (c : CacheState) (now : Nat) :
    (probePath nsf o c now).ctx.available =
      (isOk o.setup && isOk o.canary && isOk o.pods && isOk o.deployments
        && isOk o.services && isOk o.configmaps && isOk o.secrets
        && isOk o.events && isOk o.nodes) := by
  cases hs : o.setup <;> cases hc : o.canary <;> cases hn : o.contextName <;>
    simp [probePath, perKindFail, perKind_available, isOk, hs, hc, hn, baseContext]

/-- C10: in every context returned by `get_context_data`, `k8s_available` is
true exactly when the tool is installed, the kubernetes library is present,
no truthy cached error and no probing marker intercepts, a kubeconfig was
found, the client setup and canary succeeded, and every per-kind list call
(nodes included) completed without error — so on every failure path the
returned context carries `k8s_available = False`. -/
theorem available_iff_all_calls_ok (installed k8sLib : Bool)
    (kcfg nsf : Option String) (o : ApiOracle) (c : CacheState) (now : Nat) :
    (get_context_data installed k8sLib kcfg nsf o c now).ctx.available =
      (installed && k8sLib && !truthyStr (cacheGetErr c now)
        && !probingActive c now && kcfg.isSome && isOk o.setup && isOk o.canary
        && isOk o.pods && isOk o.deployments && isOk o.services
        && isOk o.configmaps && isOk o.secrets && isOk o.events
        && isOk o.nodes) := by
  cases installed <;> cases k8sLib <;>
    cases hce : truthyStr (cacheGetErr c now) <;>
    cases hpr : probingActive c now <;>
    cases kcfg <;>
    simp [get_context_data, probePath_available, baseContext, hce, hpr]

end K8s
